import Mathlib

/-
Verification development for the ICM-20948 9-DOF IMU driver
(`src/apps/vision/roboflow/icm20948.py`).

The integer-side pipeline (raw byte decoding, the 8-slot moving-average
rings, gyro-offset calibration, and the secondary-bus register protocol)
is embedded over `Nat`/`Int`, mirroring Python's unbounded-integer
semantics (`>>` on a signed value is floor division by a power of two).
The floating-point AHRS filter is embedded over `ℝ`.
-/

namespace ICM20948

/-! Register and scale constants, from the top of `icm20948.py`. -/

def REG_ADD_REG_BANK_SEL : Nat := 0x7F
def REG_ADD_USER_CTRL : Nat := 0x03
def REG_VAL_BIT_I2C_MST_EN : Nat := 0x20
def REG_ADD_EXT_SENS_DATA_00 : Nat := 0x3B
def REG_ADD_I2C_SLV0_ADDR : Nat := 0x03
def REG_ADD_I2C_SLV0_REG : Nat := 0x04
def REG_ADD_I2C_SLV0_CTRL : Nat := 0x05
def REG_VAL_BIT_SLV0_EN : Nat := 0x80
def REG_VAL_BIT_MASK_LEN : Nat := 0x07

/-- Two's-complement sign conversion applied inline by the raw readers:
`if v > 32767: v -= 65536`. -/
def toSigned (x : Nat) : Int :=
  if x > 32767 then (x : Int) - 65536 else (x : Int)

/-- Re-encoding of a signed 16-bit value as its unsigned 16-bit
representation (the inverse direction of `toSigned`, used to state the
spec's round-trip property). -/
def encode16 (v : Int) : Nat := (v % 65536).toNat

/-- Decoder embedded from `ICM20948._read_gyro_raw`: each axis combines its
two bytes as `(data[0] << 8) | data[1]` and then sign-converts. The six
bytes are the block read at `REG_ADD_GYRO_XOUT_H`. -/
def read_gyro_raw (d0 d1 d2 d3 d4 d5 : Nat) : Int × Int × Int :=
  (toSigned ((d0 <<< 8) ||| d1), toSigned ((d2 <<< 8) ||| d3), toSigned ((d4 <<< 8) ||| d5))

/-- Decoder embedded from `ICM20948._read_accel_raw`: identical byte
pairing to the gyro reader, on the block at `REG_ADD_ACCEL_XOUT_H`. -/
def read_accel_raw (d0 d1 d2 d3 d4 d5 : Nat) : Int × Int × Int :=
  (toSigned ((d0 <<< 8) ||| d1), toSigned ((d2 <<< 8) ||| d3), toSigned ((d4 <<< 8) ||| d5))

/-- Decoder embedded from `ICM20948._read_mag_raw`. The 20-iteration
data-ready poll is abstracted to its outcome `dataReady`; on timeout the
source returns `(0, 0, 0)` without decoding. On the data path the source
pairs bytes as `mx = (data[1] << 8) | data[0]` (low byte first), sign
converts, and returns `(mx, -my, -mz)`. -/
def read_mag_raw (dataReady : Bool) (d0 d1 d2 d3 d4 d5 : Nat) : Int × Int × Int :=
  if dataReady then
    (toSigned ((d1 <<< 8) ||| d0), -toSigned ((d3 <<< 8) ||| d2), -toSigned ((d5 <<< 8) ||| d4))
  else (0, 0, 0)

/-- Modelled from the spec: a signed 16-bit value decoded from two bytes
in big-endian order, high byte first (`value = (byte0 << 8) | byte1`),
then two's-complement sign-converted. -/
def be16 (hi lo : Nat) : Int := toSigned ((hi <<< 8) ||| lo)

/-- Little-endian pairing, low byte first, used to describe what the
magnetometer reader actually does. -/
def le16 (lo hi : Nat) : Int := toSigned ((hi <<< 8) ||| lo)

/-- Python's arithmetic right shift `n >> k` on an unbounded signed
integer: floor division by `2 ^ k`. -/
def pyShr (n : Int) (k : Nat) : Int := Int.fdiv n (2 ^ k)

/-- One axis of the driver's averaging state: an 8-slot ring buffer
(`avg_buffer[axis]`, initialised to `[0]*8`) and its write index
(`idx_list[axis]`). -/
structure AvgRing where
  buf : List Int
  idx : Nat

/-- Embedded from `ICM20948._calc_avg`: store the incoming value at the
current index, advance the index with `(idx + 1) & 0x07`, and return the
sum of the ring shifted right by 3. -/
def calc_avg (r : AvgRing) (inVal : Int) : Int × AvgRing :=
  let buf := r.buf.set r.idx inVal
  let idx := (r.idx + 1) &&& 0x07
  (pyShr buf.sum 3, ⟨buf, idx⟩)

/-- Iterated pushes of the same value through `calc_avg`, keeping only the
evolving ring state. -/
def pushN (r : AvgRing) (v : Int) : Nat → AvgRing
  | 0 => r
  | n + 1 => (calc_avg (pushN r v n) v).2

/-- Embedded from `ICM20948._calibrate_gyro`: the loop accumulates the
per-axis sums of the raw gyro samples read during calibration (the source
performs 32 reads), and the offsets are the sums shifted right by 5. The
sample list stands for the successive values returned by the bus. -/
def calibrate_gyro (samples : List (Int × Int × Int)) : List Int :=
  let sums := samples.foldl
    (fun acc g => (acc.1 + g.1, acc.2.1 + g.2.1, acc.2.2 + g.2.2)) ((0 : Int), (0 : Int), (0 : Int))
  [pyShr sums.1 5, pyShr sums.2.1 5, pyShr sums.2.2 5]

/-- Python's `x & ~m` on the non-negative register bytes handled by the
driver: clears from `x` the bits of `m`. Since `x &&& m` is exactly the
sub-mask of bits common to `x` and `m`, subtracting it from `x` clears
those bits and nothing else. -/
def andNot (x m : Nat) : Nat := x - (x &&& m)

/-- Bytes the bus returns during one `_read_secondary` call: the
user-control register, the external-sensor-data window, and the slave-0
control register read back before the final write. -/
structure SecOracle where
  userCtrl : Nat
  extData : Nat → Nat
  slv0Ctrl : Nat

/-- Result of one `_read_secondary` call: the data bytes returned, plus
the chronological list of register writes (register, value) it performed,
bank-select writes included. -/
structure SecTrace where
  data : List Nat
  writes : List (Nat × Nat)

/-- Embedded from `ICM20948._read_secondary`: select bank 3, program the
slave-0 address/register/control (enable bit OR length), select bank 0,
pulse the I2C-master-enable bit in the user-control register, read
`length` bytes from the external-sensor-data window, select bank 3, write
the slave-0 control register masked with `~(REG_VAL_BIT_I2C_MST_EN &
REG_VAL_BIT_MASK_LEN)`, and restore bank 0. -/
def read_secondary (o : SecOracle) (i2cAddr regAddr : Nat) (length : Nat) : SecTrace :=
  let temp := o.userCtrl
  let temp1 := temp ||| REG_VAL_BIT_I2C_MST_EN
  let temp2 := andNot temp1 REG_VAL_BIT_I2C_MST_EN
  let data := (List.range length).map o.extData
  let wb := andNot o.slv0Ctrl (REG_VAL_BIT_I2C_MST_EN &&& REG_VAL_BIT_MASK_LEN)
  { data := data
    writes :=
      [(REG_ADD_REG_BANK_SEL, 3 <<< 4),
       (REG_ADD_I2C_SLV0_ADDR, i2cAddr),
       (REG_ADD_I2C_SLV0_REG, regAddr),
       (REG_ADD_I2C_SLV0_CTRL, REG_VAL_BIT_SLV0_EN ||| length),
       (REG_ADD_REG_BANK_SEL, 0 <<< 4),
       (REG_ADD_USER_CTRL, temp1),
       (REG_ADD_USER_CTRL, temp2),
       (REG_ADD_REG_BANK_SEL, 3 <<< 4),
       (REG_ADD_I2C_SLV0_CTRL, wb),
       (REG_ADD_REG_BANK_SEL, 0 <<< 4)] }

/-! AHRS filter over `ℝ` (the source computes in Python floats; the model
uses real arithmetic). -/

open Classical

/-- Orientation quaternion state `self.q0, self.q1, self.q2, self.q3`. -/
structure Quat where
  q0 : ℝ
  q1 : ℝ
  q2 : ℝ
  q3 : ℝ

/-- Fixed integration constant of `_ahrs_update`: the source sets
`halfT = 0.024` and multiplies every quaternion-rate expression by it. -/
noncomputable def halfT : ℝ := 0.024

/-- Embedded from `ICM20948._inv_sqrt`: `0` for non-positive input,
`1 / sqrt x` otherwise. -/
noncomputable def inv_sqrt (x : ℝ) : ℝ := if x ≤ 0 then 0 else 1 / Real.sqrt x

/-- Embedded from the body of `ICM20948._ahrs_update` up to the quaternion
integration: normalize the accelerometer and magnetometer vectors, build
the reference direction of the magnetic field, the estimated gravity and
field directions, the error cross products, and add `Kp` times the error
to the angular rate when all three error components are nonzero. Returns
the corrected rate `(gx, gy, gz)` fed to the integration. -/
noncomputable def corrected_rate (q : Quat) (Kp gx gy gz ax ay az mx my mz : ℝ) :
    ℝ × ℝ × ℝ :=
  let q0 := q.q0
  let q1 := q.q1
  let q2 := q.q2
  let q3 := q.q3
  let anorm := inv_sqrt (ax*ax + ay*ay + az*az)
  let ax := ax * anorm
  let ay := ay * anorm
  let az := az * anorm
  let mnorm := inv_sqrt (mx*mx + my*my + mz*mz)
  let mx := mx * mnorm
  let my := my * mnorm
  let mz := mz * mnorm
  let q0q0 := q0*q0
  let q0q1 := q0*q1
  let q0q2 := q0*q2
  let q0q3 := q0*q3
  let q1q1 := q1*q1
  let q1q2 := q1*q2
  let q1q3 := q1*q3
  let q2q2 := q2*q2
  let q2q3 := q2*q3
  let q3q3 := q3*q3
  let hx := 2*mx*(0.5 - q2q2 - q3q3) + 2*my*(q1q2 - q0q3) + 2*mz*(q1q3 + q0q2)
  let hy := 2*mx*(q1q2 + q0q3) + 2*my*(0.5 - q1q1 - q3q3) + 2*mz*(q2q3 - q0q1)
  let hz := 2*mx*(q1q3 - q0q2) + 2*my*(q2q3 + q0q1) + 2*mz*(0.5 - q1q1 - q2q2)
  let bx := Real.sqrt (hx*hx + hy*hy)
  let bz := hz
  let vx := 2*(q1q3 - q0q2)
  let vy := 2*(q0q1 + q2q3)
  let vz := q0q0 - q1q1 - q2q2 + q3q3
  let wx := 2*bx*(0.5 - q2q2 - q3q3) + 2*bz*(q1q3 - q0q2)
  let wy := 2*bx*(q1q2 - q0q3) + 2*bz*(q0q1 + q2q3)
  let wz := 2*bx*(q0q2 + q1q3) + 2*bz*(0.5 - q1q1 - q2q2)
  let ex := (ay*vz - az*vy) + (my*wz - mz*wy)
  let ey := (az*vx - ax*vz) + (mz*wx - mx*wz)
  let ez := (ax*vy - ay*vx) + (mx*wy - my*wx)
  if ex ≠ 0 ∧ ey ≠ 0 ∧ ez ≠ 0 then
    (gx + Kp*ex, gy + Kp*ey, gz + Kp*ez)
  else
    (gx, gy, gz)

/-- Embedded from the quaternion-integration block of
`ICM20948._ahrs_update`: the four components are updated in order, each
assignment reusing the variables already overwritten before it, exactly
as the Python statements do. -/
noncomputable def integrate_quat (q : Quat) (g : ℝ × ℝ × ℝ) : Quat :=
  let gx := g.1
  let gy := g.2.1
  let gz := g.2.2
  let q0 := q.q0 + (-q.q1*gx - q.q2*gy - q.q3*gz) * halfT
  let q1 := q.q1 + (q0*gx + q.q2*gz - q.q3*gy) * halfT
  let q2 := q.q2 + (q0*gy - q1*gz + q.q3*gx) * halfT
  let q3 := q.q3 + (q0*gz + q1*gy - q2*gx) * halfT
  ⟨q0, q1, q2, q3⟩

/-- Sum of squared quaternion components (the quantity whose square root
the final normalization of `_ahrs_update` divides by). -/
noncomputable def quat_norm_sq (p : Quat) : ℝ :=
  p.q0*p.q0 + p.q1*p.q1 + p.q2*p.q2 + p.q3*p.q3

/-- Embedded from the final block of `ICM20948._ahrs_update`: multiply all
four components by `_inv_sqrt` of their sum of squares. -/
noncomputable def quat_normalize (p : Quat) : Quat :=
  let norm := inv_sqrt (p.q0*p.q0 + p.q1*p.q1 + p.q2*p.q2 + p.q3*p.q3)
  ⟨p.q0*norm, p.q1*norm, p.q2*norm, p.q3*norm⟩

/-- Full `ICM20948._ahrs_update`: error-corrected rate, sequential
quaternion integration, then renormalization. -/
noncomputable def ahrs_update (q : Quat) (Kp gx gy gz ax ay az mx my mz : ℝ) : Quat :=
  quat_normalize (integrate_quat q (corrected_rate q Kp gx gy gz ax ay az mx my mz))

/-! Snapshot-producing `read()` and the threaded sampler loop. -/

/-- Roll, pitch, yaw angles in degrees (dataclass `IMUAngles`, all fields
defaulting to `0.0`). -/
structure IMUAngles where
  roll : ℝ
  pitch : ℝ
  yaw : ℝ

/-- Three-axis sensor data (dataclass `IMUSensorData`, all fields
defaulting to `0.0`). -/
structure IMUSensorData where
  x : ℝ
  y : ℝ
  z : ℝ

/-- Default-constructed `IMUAngles()`. -/
noncomputable def zeroAngles : IMUAngles := ⟨0, 0, 0⟩

/-- Default-constructed `IMUSensorData()`. -/
noncomputable def zeroSensor : IMUSensorData := ⟨0, 0, 0⟩

/-- The tuple type returned by `ICM20948.read` and published by the
threaded sampler: (angles, gyro, accel, mag). -/
abbrev Snapshot : Type := IMUAngles × IMUSensorData × IMUSensorData × IMUSensorData

/-- The all-default tuple `IMUAngles(), IMUSensorData(), IMUSensorData(),
IMUSensorData()` that `read()` returns when uninitialized or on a caught
I/O error. -/
noncomputable def zeroSnapshot : Snapshot := (zeroAngles, zeroSensor, zeroSensor, zeroSensor)

/-- The three per-axis averaging rings of one sensor
(`self._gyro_avg`/`self._gyro_idx` and friends). -/
structure Avg3 where
  x : AvgRing
  y : AvgRing
  z : AvgRing

/-- Driver state mutated by `read()`: the `initialized` flag (field
`inited` here), gyro offsets, quaternion, filter gains, and the nine
averaging rings. -/
structure ICMState where
  inited : Bool
  gyro_offset : List Int
  q : Quat
  Kp : ℝ
  Ki : ℝ
  gyroAvg : Avg3
  accelAvg : Avg3
  magAvg : Avg3

/-- One sample cycle's raw sensor data as delivered by the bus: the three
raw triples produced by `_read_gyro_raw`, `_read_accel_raw`,
`_read_mag_raw`. -/
structure RawSample where
  gyro : Int × Int × Int
  accel : Int × Int × Int
  mag : Int × Int × Int

/-- Two-argument arctangent `math.atan2(y, x)`, modelled as the argument
of the complex number `x + y*i`. -/
noncomputable def atan2 (y x : ℝ) : ℝ := Complex.arg ⟨x, y⟩

/-- Gyroscope sensitivity scale factor at the 1000 dps full-scale
setting. -/
noncomputable def GYRO_SSF_AT_FS_1000DPS : ℝ := 32.8

/-- Accelerometer sensitivity scale factor at the 2 g full-scale
setting. -/
noncomputable def ACCEL_SSF_AT_FS_2g : ℝ := 16384

/-- Magnetometer sensitivity scale factor. -/
noncomputable def MAG_SSF_AT_FS_4900uT : ℝ := 0.15

/-- Embedded from the body of `ICM20948.read` on the successful path:
push each raw axis through its averaging ring, subtract the gyro offsets,
convert the gyro rate to rad/s, run `_ahrs_update`, derive the Euler
angles from the updated quaternion, and scale the three sensor outputs.
Returns the snapshot and the updated driver state. -/
noncomputable def read_body (s : ICMState) (raw : RawSample) : Snapshot × ICMState :=
  let r1 := calc_avg s.gyroAvg.x raw.gyro.1
  let r2 := calc_avg s.gyroAvg.y raw.gyro.2.1
  let r3 := calc_avg s.gyroAvg.z raw.gyro.2.2
  let gx := r1.1 - s.gyro_offset.getD 0 0
  let gy := r2.1 - s.gyro_offset.getD 1 0
  let gz := r3.1 - s.gyro_offset.getD 2 0
  let a1 := calc_avg s.accelAvg.x raw.accel.1
  let a2 := calc_avg s.accelAvg.y raw.accel.2.1
  let a3 := calc_avg s.accelAvg.z raw.accel.2.2
  let ax := a1.1
  let ay := a2.1
  let az := a3.1
  let m1 := calc_avg s.magAvg.x raw.mag.1
  let m2 := calc_avg s.magAvg.y raw.mag.2.1
  let m3 := calc_avg s.magAvg.z raw.mag.2.2
  let mx := m1.1
  let my := m2.1
  let mz := m3.1
  let motion_gx := (gx : ℝ) / 32.8 * 0.0175
  let motion_gy := (gy : ℝ) / 32.8 * 0.0175
  let motion_gz := (gz : ℝ) / 32.8 * 0.0175
  let q' := ahrs_update s.q s.Kp motion_gx motion_gy motion_gz
    (ax : ℝ) (ay : ℝ) (az : ℝ) (mx : ℝ) (my : ℝ) (mz : ℝ)
  let pitch := Real.arcsin (-2*q'.q1*q'.q3 + 2*q'.q0*q'.q2) * 57.3
  let roll := atan2 (2*q'.q2*q'.q3 + 2*q'.q0*q'.q1) (-2*q'.q1*q'.q1 - 2*q'.q2*q'.q2 + 1) * 57.3
  let yaw := atan2 (-2*q'.q1*q'.q2 - 2*q'.q0*q'.q3) (2*q'.q2*q'.q2 + 2*q'.q3*q'.q3 - 1) * 57.3
  ((⟨roll, pitch, yaw⟩,
    ⟨(gx : ℝ) / GYRO_SSF_AT_FS_1000DPS, (gy : ℝ) / GYRO_SSF_AT_FS_1000DPS,
      (gz : ℝ) / GYRO_SSF_AT_FS_1000DPS⟩,
    ⟨(ax : ℝ) / ACCEL_SSF_AT_FS_2g, (ay : ℝ) / ACCEL_SSF_AT_FS_2g,
      (az : ℝ) / ACCEL_SSF_AT_FS_2g⟩,
    ⟨(mx : ℝ) * MAG_SSF_AT_FS_4900uT, (my : ℝ) * MAG_SSF_AT_FS_4900uT,
      (mz : ℝ) * MAG_SSF_AT_FS_4900uT⟩),
   { s with
      q := q'
      gyroAvg := ⟨r1.2, r2.2, r3.2⟩
      accelAvg := ⟨a1.2, a2.2, a3.2⟩
      magAvg := ⟨m1.2, m2.2, m3.2⟩ })

/-- Embedded from `ICM20948.read`. The bus outcome of one cycle is either
the raw sample data or a raised I/O error. If the `initialized` flag is
down, the default tuple is returned immediately with no bus access (the
result does not depend on `bus`) and no state change. On the success path
the full pipeline runs; a raised error is caught and the default tuple is
returned with the driver state unchanged (the raw reads mutate none of
the modelled state, and nothing after them raises). -/
noncomputable def read (s : ICMState) (bus : Except Unit RawSample) : Snapshot × ICMState :=
  if s.inited then
    match bus with
    | .ok raw => read_body s raw
    | .error _ => (zeroSnapshot, s)
  else
    (zeroSnapshot, s)

/-- State of `ThreadedIMU`: the wrapped driver plus the published
`(_angles, _gyro, _accel, _mag)` snapshot. -/
structure TIMUState where
  imu : ICMState
  snapshot : Snapshot

/-- One iteration of `ThreadedIMU._read_loop`: run `self.imu.read()` and
publish whatever tuple it returned, unconditionally, under the lock. -/
noncomputable def read_loop_step (t : TIMUState) (bus : Except Unit RawSample) : TIMUState :=
  let r := read t.imu bus
  ⟨r.2, r.1⟩

/-! Concrete states used by witnesses and counterexamples. -/

/-- An averaging ring as first constructed: eight zero slots, index 0. -/
def zeroRing : AvgRing := ⟨List.replicate 8 0, 0⟩

/-- Three fresh averaging rings. -/
def zeroAvg3 : Avg3 := ⟨zeroRing, zeroRing, zeroRing⟩

/-- A driver state as it stands right after a successful `initialize()`:
flag up, identity quaternion, source gains, fresh rings. -/
noncomputable def initState : ICMState :=
  ⟨true, [0, 0, 0], ⟨1, 0, 0, 0⟩, 4.5, 1.0, zeroAvg3, zeroAvg3, zeroAvg3⟩

/-- A driver state whose `initialized` flag is down. -/
noncomputable def uninitState : ICMState :=
  ⟨false, [0, 0, 0], ⟨1, 0, 0, 0⟩, 4.5, 1.0, zeroAvg3, zeroAvg3, zeroAvg3⟩

/-- A nonzero previously published snapshot (roll = 1 degree). -/
noncomputable def prevSnapshot : Snapshot := (⟨1, 0, 0⟩, zeroSensor, zeroSensor, zeroSensor)

/-- Threaded-sampler state holding a nonzero published snapshot. -/
noncomputable def tPrev : TIMUState := ⟨initState, prevSnapshot⟩

/-! Helper lemmas. -/

/-- Masking with `0x07` is reduction modulo 8. -/
theorem land_seven (n : Nat) : n &&& 7 = n % 8 := by
  have h := Nat.and_pow_two_sub_one_eq_mod n 3
  norm_num at h
  exact h

/-- A right shift by `k` undoes multiplication by `2 ^ k`. -/
theorem pyShr_mul_pow (k : Nat) (v : Int) : pyShr (2 ^ k * v) k = v := by
  unfold pyShr
  exact Int.mul_fdiv_cancel_left v (by positivity)

/-- C4 counterexample: on the magnetometer data bytes
`[0x01, 0x02, 0, 0, 0, 0]` the x-axis decodes to `0x0201 = 513`, not the
big-endian value `0x0102 = 258`, so the claim that every reader pairs
bytes high-byte-first is false on `_read_mag_raw`. -/
theorem mag_not_big_endian :
    ¬ ((read_mag_raw true 0x01 0x02 0 0 0 0).1 = be16 0x01 0x02) := by
  decide

/-- C4 (amended): the gyroscope and accelerometer readers decode each
axis from two big-endian bytes (high byte first) before sign conversion;
the magnetometer reader instead pairs its bytes low-byte-first
(little-endian) and negates the y and z axes. -/
theorem raw_decode_endianness (d0 d1 d2 d3 d4 d5 : Nat) :
    read_gyro_raw d0 d1 d2 d3 d4 d5 = (be16 d0 d1, be16 d2 d3, be16 d4 d5) ∧
    read_accel_raw d0 d1 d2 d3 d4 d5 = (be16 d0 d1, be16 d2 d3, be16 d4 d5) ∧
    read_mag_raw true d0 d1 d2 d3 d4 d5 = (le16 d0 d1, -le16 d2 d3, -le16 d4 d5) := by
  refine ⟨rfl, rfl, ?_⟩
  simp [read_mag_raw, le16]

/-- C5: the sign decode shared by the raw readers maps an unsigned 16-bit
encoding `x ≥ 32768` to `x − 65536`, leaves `x ≤ 32767` unchanged, and
re-encoding the decoded value modulo 2^16 restores `x`; moreover the raw
gyro byte block `[0x7F, 0xFF, 0x00, 0x01, 0x80, 0x00]` decodes to
`gx = 32767, gy = 1, gz = -32768`. -/
theorem toSigned_roundtrip (x : Nat) (hx : x < 65536) :
    (32768 ≤ x → toSigned x = (x : Int) - 65536) ∧
    (x ≤ 32767 → toSigned x = (x : Int)) ∧
    encode16 (toSigned x) = x ∧
    read_gyro_raw 0x7F 0xFF 0x00 0x01 0x80 0x00 = (32767, 1, -32768) := by
  refine ⟨?_, ?_, ?_, by decide⟩
  · intro h
    unfold toSigned
    rw [if_pos (by omega)]
  · intro h
    unfold toSigned
    rw [if_neg (by omega)]
  · unfold toSigned encode16
    split <;> omega

/-- Closed witness for the C5 theorem at `x = 40000`. -/
theorem toSigned_roundtrip_witness :
    40000 < 65536 ∧
    ((32768 ≤ 40000 → toSigned 40000 = (40000 : Int) - 65536) ∧
     (40000 ≤ 32767 → toSigned 40000 = (40000 : Int)) ∧
     encode16 (toSigned 40000) = 40000 ∧
     read_gyro_raw 0x7F 0xFF 0x00 0x01 0x80 0x00 = (32767, 1, -32768)) :=
  ⟨by decide, toSigned_roundtrip 40000 (by decide)⟩

/-- C7: gyroscope calibration computes each axis offset as the sum of the
raw samples shifted right by 5; when the 32 samples taken during
calibration all equal `(sx, sy, sz)`, the offsets are exactly
`[sx, sy, sz]`, because `(32·s) >> 5 = s` in floor arithmetic for every
signed `s`. -/
theorem calibrate_gyro_constant_samples (sx sy sz : Int) :
    calibrate_gyro (List.replicate 32 (sx, sy, sz)) = [sx, sy, sz] := by
  have e : ∀ a b c : Int,
      (List.replicate 32 ((a, b, c) : Int × Int × Int)).foldl
        (fun acc g => (acc.1 + g.1, acc.2.1 + g.2.1, acc.2.2 + g.2.2)) (0, 0, 0) =
      (32 * a, 32 * b, 32 * c) := by
    intro a b c
    simp [List.replicate, List.foldl]
    refine ⟨by ring, by ring, by ring⟩
  unfold calibrate_gyro
  rw [e]
  have h1 := pyShr_mul_pow 5 sx
  have h2 := pyShr_mul_pow 5 sy
  have h3 := pyShr_mul_pow 5 sz
  norm_num at h1 h2 h3 ⊢
  exact ⟨h1, h2, h3⟩

/-- C6: for every signed value `v`, every initial content of an 8-slot
averaging ring, and every in-range write index, the eighth consecutive
push of `v` returns exactly `v`: the eight pushes overwrite all eight
slots, so the sum is `8·v` and `(8·v) >> 3 = v` in floor arithmetic. -/
theorem calc_avg_constant_convergence (v : Int) (b : List Int) (i : Nat)
    (hb : b.length = 8) (hi : i < 8) :
    (calc_avg (pushN ⟨b, i⟩ v 7) v).1 = v := by
  match b, hb with
  | [b0, b1, b2, b3, b4, b5, b6, b7], _ =>
    interval_cases i <;>
      · simp [pushN, calc_avg, land_seven, pyShr]
        rw [show v + (v + (v + (v + (v + (v + (v + v)))))) = 2 ^ 3 * v by ring]
        exact Int.mul_fdiv_cancel_left v (by positivity)

/-- Closed witness for the C6 theorem: a ring holding arbitrary junk with
write index 3, fed the value −9 eight times, returns −9 on the eighth
push. -/
theorem calc_avg_constant_convergence_witness :
    ([(1 : Int), 2, 3, 4, 5, 6, 7, 8].length = 8 ∧ 3 < 8) ∧
    (calc_avg (pushN ⟨[(1 : Int), 2, 3, 4, 5, 6, 7, 8], 3⟩ (-9) 7) (-9)).1 = -9 :=
  ⟨⟨by decide, by decide⟩,
   calc_avg_constant_convergence (-9) [1, 2, 3, 4, 5, 6, 7, 8] 3 (by decide) (by decide)⟩

/-- C2 (code bug): one `_read_secondary` transaction of length 2 against a
device whose slave-0 control register reads back `0x82` (the
enable-bit-plus-length value the call itself programmed earlier). The full
write trace shows the final slave-0 control write-back is `0x82` — the
enable bit `0x80` is still set — because the source masks with
`~(REG_VAL_BIT_I2C_MST_EN & REG_VAL_BIT_MASK_LEN) = ~(0x20 & 0x07) = ~0`,
which clears no bits at all. -/
theorem read_secondary_writeback_keeps_enable_bit :
    (read_secondary ⟨0, fun _ => 0, 0x82⟩ 0x8C 0x10 2).writes =
      [(0x7F, 0x30), (0x03, 0x8C), (0x04, 0x10), (0x05, 0x82), (0x7F, 0x00),
       (0x03, 0x20), (0x03, 0x00), (0x7F, 0x30), (0x05, 0x82), (0x7F, 0x00)] ∧
    ((read_secondary ⟨0, fun _ => 0, 0x82⟩ 0x8C 0x10 2).writes.getD 8 (0, 0)).2 &&&
      REG_VAL_BIT_SLV0_EN ≠ 0 := by
  constructor <;> decide

/-- C10: the quaternion integration is sequential. The increment added to
`q1` uses the already-incremented `q0`; the increment to `q2` uses the
incremented `q0` and `q1`; the increment to `q3` uses the incremented
`q0`, `q1` and `q2`; only `q0`'s increment reads the pre-update
quaternion. The final conjunct separates this from a simultaneous update:
at a concrete input the produced `q1` differs from the value a
simultaneous (pre-state) update would give. -/
theorem integrate_quat_sequential :
    (∀ (q : Quat) (g : ℝ × ℝ × ℝ),
      (integrate_quat q g).q0 =
        q.q0 + (-q.q1*g.1 - q.q2*g.2.1 - q.q3*g.2.2) * halfT ∧
      (integrate_quat q g).q1 =
        q.q1 + ((integrate_quat q g).q0*g.1 + q.q2*g.2.2 - q.q3*g.2.1) * halfT ∧
      (integrate_quat q g).q2 =
        q.q2 + ((integrate_quat q g).q0*g.2.1 - (integrate_quat q g).q1*g.2.2 + q.q3*g.1) * halfT ∧
      (integrate_quat q g).q3 =
        q.q3 + ((integrate_quat q g).q0*g.2.2 + (integrate_quat q g).q1*g.2.1 -
          (integrate_quat q g).q2*g.1) * halfT) ∧
    (integrate_quat ⟨1, 1, 0, 0⟩ (1, 0, 0)).q1 ≠ 1 + ((1 : ℝ)*1 + 0*0 - 0*0) * halfT := by
  constructor
  · intro q g
    refine ⟨?_, ?_, ?_, ?_⟩ <;> (simp only [integrate_quat]; try ring)
  · simp only [integrate_quat, halfT]
    norm_num

/-- C3 counterexample: at the pre-state identity quaternion and corrected
rate `(1, 0, 0)`, the produced `q1` is `0.024` — the rate expression times
the code's `halfT = 0.024` — not the rate expression times
`Δt/2 = 0.012` the claim requires. -/
theorem integrate_quat_increment_not_half_of_nominal_step :
    (integrate_quat ⟨1, 0, 0, 0⟩ (1, 0, 0)).q1 ≠
      0 + ((integrate_quat ⟨1, 0, 0, 0⟩ (1, 0, 0)).q0 * 1 + 0*0 - 0*0) * 0.012 := by
  simp only [integrate_quat, halfT]
  norm_num

/-- C3 (amended): every quaternion-component increment is its rate
expression (evaluated sequentially) multiplied by the constant the source
names `halfT`, whose value is `0.024` — the same number the spec calls
the full nominal step Δt — rather than `Δt/2 = 0.012`. -/
theorem integrate_quat_step_times_024 (q : Quat) (g : ℝ × ℝ × ℝ) :
    halfT = 0.024 ∧
    (integrate_quat q g).q0 =
      q.q0 + (-q.q1*g.1 - q.q2*g.2.1 - q.q3*g.2.2) * 0.024 ∧
    (integrate_quat q g).q1 =
      q.q1 + ((integrate_quat q g).q0*g.1 + q.q2*g.2.2 - q.q3*g.2.1) * 0.024 ∧
    (integrate_quat q g).q2 =
      q.q2 + ((integrate_quat q g).q0*g.2.1 - (integrate_quat q g).q1*g.2.2 + q.q3*g.1) * 0.024 ∧
    (integrate_quat q g).q3 =
      q.q3 + ((integrate_quat q g).q0*g.2.2 + (integrate_quat q g).q1*g.2.1 -
        (integrate_quat q g).q2*g.1) * 0.024 := by
  refine ⟨rfl, ?_, ?_, ?_, ?_⟩ <;> (simp only [integrate_quat, halfT]; try ring)

/-- Renormalizing a quaternion of nonzero squared norm yields squared
norm 1: the guard inside `_inv_sqrt` does not fire, and the components
are divided by the square root of their sum of squares. -/
theorem quat_normalize_unit (p : Quat) (h : quat_norm_sq p ≠ 0) :
    quat_norm_sq (quat_normalize p) = 1 := by
  have hnn : 0 ≤ p.q0*p.q0 + p.q1*p.q1 + p.q2*p.q2 + p.q3*p.q3 :=
    add_nonneg (add_nonneg (add_nonneg (mul_self_nonneg _) (mul_self_nonneg _))
      (mul_self_nonneg _)) (mul_self_nonneg _)
  have hpos : 0 < p.q0*p.q0 + p.q1*p.q1 + p.q2*p.q2 + p.q3*p.q3 :=
    lt_of_le_of_ne hnn (by unfold quat_norm_sq at h; exact Ne.symm h)
  unfold quat_norm_sq quat_normalize inv_sqrt
  rw [if_neg (not_le.mpr hpos)]
  have hsq : Real.sqrt (p.q0*p.q0 + p.q1*p.q1 + p.q2*p.q2 + p.q3*p.q3) *
      Real.sqrt (p.q0*p.q0 + p.q1*p.q1 + p.q2*p.q2 + p.q3*p.q3) =
      p.q0*p.q0 + p.q1*p.q1 + p.q2*p.q2 + p.q3*p.q3 :=
    Real.mul_self_sqrt hnn
  have hne : Real.sqrt (p.q0*p.q0 + p.q1*p.q1 + p.q2*p.q2 + p.q3*p.q3) ≠ 0 :=
    ne_of_gt (Real.sqrt_pos.mpr hpos)
  field_simp

/-- C8: after every AHRS update step whose post-integration quaternion
has nonzero norm, the stored quaternion has squared norm exactly 1 (in
the real-arithmetic model of the floating-point code): the update ends by
multiplying all four components by the inverse square root of their sum
of squares. -/
theorem ahrs_update_unit_norm (q : Quat) (Kp gx gy gz ax ay az mx my mz : ℝ)
    (h : quat_norm_sq
      (integrate_quat q (corrected_rate q Kp gx gy gz ax ay az mx my mz)) ≠ 0) :
    quat_norm_sq (ahrs_update q Kp gx gy gz ax ay az mx my mz) = 1 := by
  unfold ahrs_update
  exact quat_normalize_unit _ h

/-- Closed witness for the C8 theorem: at the identity quaternion with all
sensor inputs zero, the post-integration norm is 1 (nonzero) and the
stored quaternion has squared norm 1. -/
theorem ahrs_update_unit_norm_witness :
    quat_norm_sq
      (integrate_quat ⟨1, 0, 0, 0⟩ (corrected_rate ⟨1, 0, 0, 0⟩ 4.5 0 0 0 0 0 0 0 0 0)) ≠ 0 ∧
    quat_norm_sq (ahrs_update ⟨1, 0, 0, 0⟩ 4.5 0 0 0 0 0 0 0 0 0) = 1 := by
  have h : quat_norm_sq
      (integrate_quat ⟨1, 0, 0, 0⟩ (corrected_rate ⟨1, 0, 0, 0⟩ 4.5 0 0 0 0 0 0 0 0 0)) ≠ 0 := by
    simp [corrected_rate, inv_sqrt, integrate_quat, quat_norm_sq, halfT, Real.sqrt_zero]
  exact ⟨h, ahrs_update_unit_norm ⟨1, 0, 0, 0⟩ 4.5 0 0 0 0 0 0 0 0 0 h⟩

/-- C9: while the `initialized` flag is down, `read()` returns the
all-default tuple and leaves the driver state — quaternion, ring buffers,
gyro offset — untouched; the result is the same for every bus outcome,
capturing that the early return performs no bus I/O. -/
theorem read_uninitialized_is_noop (s : ICMState) (bus : Except Unit RawSample)
    (h : s.inited = false) :
    read s bus = (zeroSnapshot, s) := by
  simp [read, h]

/-- Closed witness for the C9 theorem on a concrete uninitialized
state. -/
theorem read_uninitialized_is_noop_witness :
    uninitState.inited = false ∧
    read uninitState (.error ()) = (zeroSnapshot, uninitState) :=
  ⟨rfl, read_uninitialized_is_noop uninitState (.error ()) rfl⟩

/-- C1 counterexample: a sampler state holding a published snapshot with
roll = 1, whose next cycle raises a bus I/O error, does not keep the
previous snapshot: the loop publishes the zeroed default tuple returned
by `read()`. -/
theorem error_cycle_snapshot_not_retained :
    ¬ ((read_loop_step tPrev (.error ())).snapshot = tPrev.snapshot) := by
  intro hEq
  have h1 : (read_loop_step tPrev (.error ())).snapshot = zeroSnapshot := by
    simp [read_loop_step, read, tPrev, initState]
  rw [h1] at hEq
  have h2 := congrArg (fun p : Snapshot => p.1.roll) hEq
  norm_num [zeroSnapshot, zeroAngles, tPrev, prevSnapshot] at h2

/-- C1 (amended): a bus I/O error during a sample cycle of an initialized
driver is caught and the loop continues with the driver state unchanged,
but the snapshot published after the cycle is the zeroed default tuple —
the cycle's error replaces the previous snapshot rather than retaining
it. -/
theorem error_cycle_publishes_zero (t : TIMUState) (h : t.imu.inited = true) :
    read_loop_step t (.error ()) = ⟨t.imu, zeroSnapshot⟩ := by
  simp [read_loop_step, read, h]

/-- Closed witness for the amended C1 theorem. -/
theorem error_cycle_publishes_zero_witness :
    tPrev.imu.inited = true ∧
    read_loop_step tPrev (.error ()) = ⟨tPrev.imu, zeroSnapshot⟩ :=
  ⟨rfl, error_cycle_publishes_zero tPrev rfl⟩

end ICM20948
